import Mathlib

/-!
Verification of the PyCronVideoAlarm alarm-scheduling and job-identity
subsystem.  The definitions below are a shallow embedding of the Python
sources:

  * `src/platforms/linux/scheduler.py`   (`LinuxScheduler`)
  * `src/platforms/macos/scheduler.py`   (`MacOSScheduler`)
  * `src/platforms/windows/scheduler.py` (`WindowsScheduler`)
  * `src/logic/scheduler.py`             (`AlarmScheduler` facade)
  * `src/main.py`                        (fire-time execution and self-deletion)

Native scheduler state is modelled explicitly (a crontab as a list of job
records, the LaunchAgents directory as a list of plists, the Task Scheduler
as two task folders).  Native-API failures (a missing crontab handle, a
failing `cron.write()`) are injected as explicit parameters; Python
exceptions along modelled paths become `Option`/error-tuple returns, exactly
where the source catches them.
-/

/-! ### String helpers (Python string semantics used by the sources) -/

/-- `charsStart s pat`: `pat` is a leading segment of `s` (character lists). -/
def charsStart : List Char → List Char → Bool
  | _, [] => true
  | [], _ :: _ => false
  | c :: cs, p :: ps => c == p && charsStart cs ps

/-- `charsHasSub pat s`: `pat` occurs contiguously inside `s` (character lists). -/
def charsHasSub (pat : List Char) : List Char → Bool
  | [] => charsStart [] pat
  | c :: cs => charsStart (c :: cs) pat || charsHasSub pat cs

/-- Python `pat in s` (substring containment). -/
def strHasSub (s pat : String) : Bool :=
  charsHasSub pat.toList s.toList

/-- Python `s.startswith(pat)`. -/
def strStarts (s pat : String) : Bool :=
  charsStart s.toList pat.toList

/-- Python `s.endswith(pat)`. -/
def strEnds (s pat : String) : Bool :=
  charsStart s.toList.reverse pat.toList.reverse

/-- Python `str.strip()` (whitespace trim on both sides). -/
def pyStrip (s : String) : String :=
  String.mk (((s.toList.dropWhile Char.isWhitespace).reverse.dropWhile
    Char.isWhitespace).reverse)

/-- Python `str(n).zfill(2)` for the digit strings used here. -/
def zfill2 (s : String) : String :=
  if s.length < 2 then "0" ++ s else s

/-- `f"{n:02d}"` / `strftime` two-digit field. -/
def pad2 (n : Nat) : String :=
  zfill2 (toString n)

/-- `strftime('%H:%M')`. -/
def hhmmStr (h m : Nat) : String :=
  pad2 h ++ ":" ++ pad2 m

/-- Python `f'"{s}"'` (wrap in double quotes). -/
def quoteArg (s : String) : String :=
  "\"" ++ s ++ "\""

/-- Python `s.split(sep)` for a one-character separator (the only kind the
sources use), on character lists. -/
def splitOnChar (sep : Char) : List Char → List (List Char)
  | [] => [[]]
  | c :: cs =>
    let r := splitOnChar sep cs
    if c == sep then [] :: r
    else
      match r with
      | [] => [[c]]
      | t :: ts => (c :: t) :: ts

/-- Python `s.split(sep)` for a one-character separator. -/
def pySplit (s : String) (sep : Char) : List String :=
  (splitOnChar sep s.toList).map String.mk

/-- Python `sep.join(xs)`. -/
def joinSep (sep : String) : List String → String
  | [] => ""
  | [x] => x
  | x :: y :: xs => x ++ sep ++ joinSep sep (y :: xs)

/-- Python `s.replace(a, b)` for one-character `a`/`b` (the only kind the
sources use). -/
def replaceChar (a b : Char) (s : String) : String :=
  String.mk (s.toList.map (fun c => if c == a then b else c))

/-- Python `int(s)` on the digit strings the sources parse; `none` models
the `ValueError` on anything else. -/
def pyToNat (s : String) : Option Nat :=
  if s.toList ≠ [] && s.toList.all Char.isDigit then
    some (s.toList.foldl (fun n c => n * 10 + (c.toNat - '0'.toNat)) 0)
  else none

/-- Python `hour, minute = map(int, time_str.split(":"))`; `none` models the
`ValueError` raised on a malformed time string. -/
def parseTimeStr (s : String) : Option (Nat × Nat) :=
  match pySplit s ':' with
  | [a, b] =>
    match pyToNat a, pyToNat b with
    | some h, some m => some (h, m)
    | _, _ => none
  | _ => none

/-! ### shlex.split (the quote/space subset generated by this program)

`LinuxScheduler.list_alarms` parses the stored command with
`shlex.split`.  The commands this program writes contain only plain
characters, spaces, and double-quoted arguments, so the model covers
whitespace splitting and single/double quoting; `none` models the
`ValueError` raised on an unbalanced quote. -/

def shlexGo : List Char → Option Char → Option (List Char) → List String →
    Option (List String)
  | [], none, none, acc => some acc.reverse
  | [], none, some cur, acc => some (String.mk cur.reverse :: acc).reverse
  | [], some _, _, _ => none
  | c :: cs, some q, cur, acc =>
    if c == q then shlexGo cs none (some (cur.getD [])) acc
    else shlexGo cs (some q) (some (c :: cur.getD [])) acc
  | c :: cs, none, cur, acc =>
    if c == ' ' || c == '\t' || c == '\n' || c == '\r' then
      match cur with
      | some t => shlexGo cs none none (String.mk t.reverse :: acc)
      | none => shlexGo cs none none acc
    else if c == '"' || c == '\'' then
      shlexGo cs (some c) (some (cur.getD [])) acc
    else
      shlexGo cs none (some (c :: cur.getD [])) acc

def shlexSplit (s : String) : Option (List String) :=
  shlexGo s.toList none none []

/-- Python `list.index(x)`; `none` models the `ValueError` when absent. -/
def idxOfTok : List String → String → Option Nat
  | [], _ => none
  | x :: xs, t => if x == t then some 0 else (idxOfTok xs t).map (· + 1)

/-- Python `xs[i]`; `none` models the `IndexError` when out of range. -/
def nthTok : List String → Nat → Option String
  | [], _ => none
  | x :: _, 0 => some x
  | _ :: xs, n + 1 => nthTok xs n

/-- Remove the first element satisfying `p`; `none` when no element does.
Models the scan-and-remove loops of the schedulers (each loop `break`s or
`return`s after the first removal). -/
def removeFirst (p : α → Bool) : List α → Option (List α)
  | [] => none
  | x :: xs => if p x then some xs else (removeFirst p xs).map (x :: ·)

/-- Like `removeFirst`, also returning the removed element. -/
def extractFirst (p : α → Bool) : List α → Option (α × List α)
  | [] => none
  | x :: xs =>
    if p x then some (x, xs)
    else (extractFirst p xs).map (fun r => (r.1, x :: r.2))

/-! ### The cron data model (`LinuxScheduler`, python-crontab) -/

/-- The `datetime` fields of `alarm_time` used by the adapters. -/
structure CronTime where
  month : Nat
  day : Nat
  hour : Nat
  minute : Nat
deriving Repr, DecidableEq

/-- One crontab entry as seen through python-crontab: the command, the
comment (ownership marker; `""` = no comment), single-valued minute/hour
(the adapter always sets them with `.on`), the one-time month/day fields
(`none` renders `*`), the rendered day-of-week field, and the enabled flag. -/
structure CronJob where
  command : String
  comment : String
  minute : Nat
  hour : Nat
  monthField : Option Nat
  dayField : Option Nat
  dowField : String
  enabled : Bool
deriving Repr, DecidableEq

/-- `LinuxScheduler.MARKER`. -/
def MARKER : String := "#PyCronVideoAlarm"

/-- `job.comment and (job.comment == MARKER or job.comment.startswith(MARKER + ":"))`. -/
def isOwnedJob (j : CronJob) : Bool :=
  j.comment == MARKER || strStarts j.comment (MARKER ++ ":")

/-- Process-level inputs of `LinuxScheduler.add_alarm`: the uid, whether the
app is frozen, `sys.executable`, the resolved `main.py` path, and the uuid
minted by `uuid.uuid4()`. -/
structure LinuxEnv where
  uid : Nat
  frozen : Bool
  executable : String
  scriptPath : String
  freshId : String
deriving Repr, DecidableEq

/-- The `env_prefix` string built in `LinuxScheduler.add_alarm`. -/
def linuxEnvVars (e : LinuxEnv) : String :=
  "DISPLAY=:0 XDG_RUNTIME_DIR=/run/user/" ++ toString e.uid ++
    " XDG_CURRENT_DESKTOP=KDE "

/-- The base command (before the one-time flags) of `LinuxScheduler.add_alarm`. -/
def linuxBaseCmd (e : LinuxEnv) (name : String) : String :=
  linuxEnvVars e ++
    (if e.frozen then quoteArg e.executable
     else quoteArg e.executable ++ " " ++ quoteArg e.scriptPath) ++
    " --execute-sequence " ++ quoteArg name

/-- The full crontab command of `LinuxScheduler.add_alarm`. -/
def linuxCmd (e : LinuxEnv) (t : CronTime) (name : String) (oneTime : Bool) :
    String :=
  if oneTime then
    linuxBaseCmd e name ++ " --delete-after --job-id " ++ e.freshId ++
      " --scheduled-time " ++ hhmmStr t.hour t.minute
  else
    linuxBaseCmd e name

/-- `day_map = {"MON":1, ..., "SUN":0}` with `.get(d, 1)`. -/
def dayMapGet (d : String) : Nat :=
  if d == "MON" then 1 else if d == "TUE" then 2 else if d == "WED" then 3
  else if d == "THU" then 4 else if d == "FRI" then 5 else if d == "SAT" then 6
  else if d == "SUN" then 0 else 1

/-- `day_rev_map.get(d.strip(), d)` (note: the default is the unstripped `d`). -/
def dayRevGet (d : String) : String :=
  let t := pyStrip d
  if t == "1" then "MON" else if t == "2" then "TUE" else if t == "3" then "WED"
  else if t == "4" then "THU" else if t == "5" then "FRI"
  else if t == "6" then "SAT" else if t == "0" then "SUN" else d

/-- The job record written by `LinuxScheduler.add_alarm`.  `dow.every(1)`
renders `*`; `dow.on(*cron_days)` renders the comma-joined values; for a
one-time job the dow field keeps its default `*`. -/
def linuxNewJob (e : LinuxEnv) (t : CronTime) (name : String)
    (days : List String) (oneTime : Bool) : CronJob :=
  { command := linuxCmd e t name oneTime
    comment := if oneTime then MARKER ++ ":" ++ e.freshId else MARKER
    minute := t.minute
    hour := t.hour
    monthField := if oneTime then some t.month else none
    dayField := if oneTime then some t.day else none
    dowField :=
      if oneTime then "*"
      else if days.length == 7 || days.isEmpty then "*"
      else joinSep "," (days.map (fun d => toString (dayMapGet d)))
    enabled := true }

/-- `LinuxScheduler.add_alarm`.  `cron` is `none` when the constructor failed
to obtain a crontab handle; `wf = some e` injects an exception raised by
`cron.write()` (caught by the adapter, which returns the error tuple; the
durable store is then unchanged). -/
def linuxAddAlarm (cron : Option (List CronJob)) (wf : Option String)
    (e : LinuxEnv) (t : CronTime) (name : String) (days : List String)
    (oneTime : Bool) : Option (List CronJob) × Bool × String :=
  match cron with
  | none => (none, false, "Crontab not available. Check logs for details.")
  | some store =>
    match wf with
    | some err => (some store, false, "Crontab Error: " ++ err)
    | none =>
      (some (store ++ [linuxNewJob e t name days oneTime]), true,
        "Alarm set for " ++ hhmmStr t.hour t.minute ++ " via Cron")

/-- The listing entry `{time, sequence, days, enabled}` produced by
`list_alarms` on Linux and macOS (`days` is a list there). -/
structure AlarmEntry where
  time : String
  sequence : String
  days : List String
  enabled : Bool
deriving Repr, DecidableEq

/-- The parsing of one owned crontab record inside
`LinuxScheduler.list_alarms`; `none` models the per-record exception that is
logged and skipped. -/
def linuxParseJob (j : CronJob) : Option AlarmEntry :=
  match shlexSplit j.command with
  | none => none
  | some args =>
    match idxOfTok args "--execute-sequence" with
    | none => none
    | some i =>
      match nthTok args (i + 1) with
      | none => none
      | some seq =>
        some
          { time := toString j.hour ++ ":" ++ zfill2 (toString j.minute)
            sequence := seq
            days :=
              if strHasSub j.command " --delete-after" then ["Once"]
              else if j.dowField == "*" then ["Daily"]
              else (pySplit j.dowField ',').map dayRevGet
            enabled := j.enabled }

/-- `LinuxScheduler.list_alarms`. -/
def linuxListAlarms (cron : Option (List CronJob)) : List AlarmEntry :=
  match cron with
  | none => []
  | some store =>
    store.filterMap (fun j => if isOwnedJob j then linuxParseJob j else none)

/-- The `job_days` string computed inside `LinuxScheduler.remove_alarm`. -/
def linuxJobDays (j : CronJob) : String :=
  if strHasSub j.command " --delete-after" then "Once"
  else if j.dowField == "*" then "Daily"
  else joinSep ", " ((pySplit j.dowField ',').map dayRevGet)

/-- The match condition of the removal loop in `LinuxScheduler.remove_alarm`:
owned marker, equal hour and minute, the requested name occurs anywhere in
the command, and (only if `days_str` was supplied) the days string matches. -/
def linuxRemoveMatches (name : String) (h m : Nat) (daysStr : String)
    (j : CronJob) : Bool :=
  isOwnedJob j && j.hour == h && j.minute == m && strHasSub j.command name &&
    (daysStr == "" || linuxJobDays j == daysStr)

/-- `LinuxScheduler.remove_alarm`. -/
def linuxRemoveAlarm (cron : Option (List CronJob)) (wf : Option String)
    (name timeStr daysStr : String) : Option (List CronJob) × Bool × String :=
  match cron with
  | none => (none, false, "Crontab not available")
  | some store =>
    match parseTimeStr timeStr with
    | none => (some store, false, "Remove Error: invalid time string")
    | some (h, m) =>
      match removeFirst (linuxRemoveMatches name h m daysStr) store with
      | none =>
        (some store, false,
          "Alarm '" ++ name ++ "' at " ++ timeStr ++ " not found in crontab.")
      | some store' =>
        match wf with
        | some err => (some store, false, "Remove Error: " ++ err)
        | none => (some store', true, "Removed alarm: " ++ name)

/-- `LinuxScheduler.get_debug_info`, with the process/user environment lines
abstracted as an input string (they come from `os.environ`/`getpass`). -/
def linuxDebugInfo (cron : Option (List CronJob)) (userInfo : String) : String :=
  let head := "=== Linux Crontab Debug Info ===\n" ++ userInfo ++
    "CronTab available: " ++ (if cron.isSome then "True" else "False")
  match cron with
  | none => head ++ "\nCrontab not accessible"
  | some store =>
    head ++ "\nAll crontab entries:" ++
      String.join (store.map (fun j =>
        "\n  " ++ j.command ++ (if j.comment == MARKER then " [OURS]" else "")))

/-! ### The self-deletion path of `main.py` (Linux branch)

When the fired process was invoked with `--delete-after`, `main.py` opens a
fresh crontab and tries, in order: Strategy 1 (exact `--job-id` comment
match, with the exact `--execute-sequence "<name>"` substring), then
Strategy 2 (an owned record whose command contains the sequence name and
`--delete-after`, at the `--scheduled-time` hour/minute).  There is no
further fallback: if neither strategy deletes, a warning is logged and the
crontab is left unchanged. -/

/-- Strategy 1 of the Linux self-deletion: comment equals
`#PyCronVideoAlarm:<job_id>` and the command contains the exact
`--execute-sequence "<name>"` substring. -/
def tier1Match (seq id : String) (j : CronJob) : Bool :=
  j.comment == MARKER ++ ":" ++ id &&
    strHasSub j.command ("--execute-sequence " ++ quoteArg seq)

/-- Strategy 2 of the Linux self-deletion: owned marker, sequence name and
`--delete-after` in the command, and the scheduled hour/minute. -/
def tier2Match (seq : String) (h m : Nat) (j : CronJob) : Bool :=
  isOwnedJob j && strHasSub j.command seq && strHasSub j.command "--delete-after" &&
    j.hour == h && j.minute == m

/-- The Linux `--delete-after` branch of `main.py`.  Returns the resulting
durable crontab and whether a job was deleted.  `wf = true` injects an
exception from `cron.write()` (caught and logged; the durable store is then
unchanged). -/
def selfDeleteLinux (store : List CronJob) (seq : String)
    (jobId schedTime : Option String) (wf : Bool) : List CronJob × Bool :=
  match (match jobId with
         | some id => removeFirst (tier1Match seq id) store
         | none => none) with
  | some s' => if wf then (store, false) else (s', true)
  | none =>
    match schedTime with
    | some ts =>
      match parseTimeStr ts with
      | some (h, m) =>
        match removeFirst (tier2Match seq h m) store with
        | some s' => if wf then (store, false) else (s', true)
        | none => (store, false)
      | none => (store, false)
    | none => (store, false)

/-! ### The fire-time execution path of `main.py`

`execute_action` (in `src/logic/actions.py`) looks up the handler for the
action type and runs it inside `try/except`, returning `False` both when the
handler is missing and when it raises — it never propagates an exception.
The `--execute-sequence` branch of `main.py` then runs every action of the
loaded sequence in order, and only afterwards, if `--delete-after` was
given, enters the deletion block, itself wrapped in a catch-all
`try/except` that only logs.  The process reaches its normal `return`
(exit code 0) for every combination of action and deletion outcomes. -/

/-- `execute_action`: handler lookup plus catch-all.  A handler outcome
`Except.error _` models a raising handler; both it and a missing handler
yield `false`. -/
def executeAction (registered : String → Bool)
    (outcome : String → Except Unit Bool) (ty : String) : Bool :=
  if registered ty then
    match outcome ty with
    | .ok b => b
    | .error _ => false
  else false

/-- Observable events of the fire path, in order of occurrence. -/
inductive FireEv
  | actionRun (ty : String) (ok : Bool)
  | removalAttempt (deleted : Bool)
deriving Repr, DecidableEq

/-- Result of the fire path: the event trace, the process exit code, and the
resulting durable crontab. -/
structure FireOutcome where
  events : List FireEv
  exitCode : Nat
  store : List CronJob
deriving Repr, DecidableEq

/-- The `--execute-sequence` branch of `main.py` after the sequence file has
been loaded (Linux): run every action through `execute_action`, then, if
`--delete-after`, attempt the self-deletion (whose own failure is logged
only). -/
def firePath (registered : String → Bool) (outcome : String → Except Unit Bool)
    (actions : List String) (seq : String) (jobId schedTime : Option String)
    (store : List CronJob) (wf : Bool) (deleteAfter : Bool) : FireOutcome :=
  let evs := actions.map (fun ty => FireEv.actionRun ty (executeAction registered outcome ty))
  if deleteAfter then
    let (store', deleted) := selfDeleteLinux store seq jobId schedTime wf
    { events := evs ++ [FireEv.removalAttempt deleted], exitCode := 0, store := store' }
  else
    { events := evs, exitCode := 0, store := store }

/-! ### The launchd data model (`MacOSScheduler`) -/

/-- Process-level inputs of `MacOSScheduler.add_alarm`. -/
structure MacEnv where
  frozen : Bool
  executable : String
  scriptPath : String
  freshId : String
deriving Repr, DecidableEq

/-- The launchd label base, `LABEL_PREFIX` in the source. -/
def macLabelBase : String := "com.juke32.pycronvideoalarm"

/-- `MacOSScheduler._build_cmd`. -/
def macBuildCmd (e : MacEnv) (name : String) (oneTime : Bool) (t : CronTime) :
    List String :=
  (if e.frozen then [e.executable, "--execute-sequence", name]
   else [e.executable, e.scriptPath, "--execute-sequence", name]) ++
    (if oneTime then
      ["--delete-after", "--job-id", e.freshId, "--scheduled-time",
        hhmmStr t.hour t.minute]
     else [])

/-- The `StartCalendarInterval` value: a dated dict (one-time), a daily dict
(hour/minute only), or an array of per-weekday dicts. -/
inductive MacCalendar
  | dated (month day hour minute : Nat)
  | daily (hour minute : Nat)
  | weekly (entries : List (Nat × Nat × Nat))
deriving Repr, DecidableEq

/-- `MacOSScheduler._build_calendar_interval`. -/
def macBuildCalendar (t : CronTime) (days : List String) (oneTime : Bool) :
    MacCalendar :=
  if oneTime then .dated t.month t.day t.hour t.minute
  else if days.isEmpty || days.length == 7 then .daily t.hour t.minute
  else .weekly (days.map (fun d => (dayMapGet d, t.hour, t.minute)))

/-- One plist file in `~/Library/LaunchAgents`: its file name, the keys the
adapter reads back, and whether `launchctl` reports the label loaded. -/
structure MacPlist where
  fileName : String
  label : String
  programArguments : List String
  calendar : MacCalendar
  pcvaSequence : String
  pcvaOneTime : String
  pcvaDays : String
  pcvaJobId : String
  loaded : Bool
deriving Repr, DecidableEq

/-- The plist written by `MacOSScheduler.add_alarm` (`loadOk` is the result
of the separate `launchctl` registration, which never deletes the file). -/
def macNewPlist (e : MacEnv) (t : CronTime) (name : String)
    (days : List String) (oneTime : Bool) (loadOk : Bool) : MacPlist :=
  { fileName := macLabelBase ++ "." ++ e.freshId ++ ".plist"
    label := macLabelBase ++ "." ++ e.freshId
    programArguments := macBuildCmd e name oneTime t
    calendar := macBuildCalendar t days oneTime
    pcvaSequence := name
    pcvaOneTime := if oneTime then "1" else "0"
    pcvaDays := if days.isEmpty then "daily" else joinSep "," days
    pcvaJobId := e.freshId
    loaded := loadOk }

/-- `MacOSScheduler.add_alarm`: the plist is always written first; the
message distinguishes a failed live registration. -/
def macAddAlarm (store : List MacPlist) (e : MacEnv) (t : CronTime)
    (name : String) (days : List String) (oneTime : Bool) (loadOk : Bool) :
    List MacPlist × Bool × String :=
  (store ++ [macNewPlist e t name days oneTime loadOk], loadOk,
    if loadOk then "Alarm set for " ++ hhmmStr t.hour t.minute ++ " via launchd"
    else "Alarm saved for " ++ hhmmStr t.hour t.minute ++
      " but launchd registration failed — it may not fire. See logs for details.")

/-- The glob `com.juke32.pycronvideoalarm.*.plist`. -/
def macGlobMatch (f : String) : Bool :=
  strStarts f (macLabelBase ++ ".") && strEnds f ".plist"

/-- Insertion sort by file name (`sorted(glob.glob(pattern))`). -/
def macInsertByName (p : MacPlist) : List MacPlist → List MacPlist
  | [] => [p]
  | q :: qs =>
    if p.fileName < q.fileName then p :: q :: qs else q :: macInsertByName p qs

def macSortByName : List MacPlist → List MacPlist
  | [] => []
  | p :: ps => macInsertByName p (macSortByName ps)

/-- `cal[0]` then `cal.get("Hour", 0)` / `cal.get("Minute", 0)`; `none`
models the `IndexError` on an empty weekday array (record skipped). -/
def calHead : MacCalendar → Option (Nat × Nat)
  | .dated _ _ h m => some (h, m)
  | .daily h m => some (h, m)
  | .weekly es => es.head?.map (fun e => (e.2.1, e.2.2))

/-- The parsing of one plist inside `MacOSScheduler.list_alarms`. -/
def macParseEntry (p : MacPlist) : Option AlarmEntry :=
  match calHead p.calendar with
  | none => none
  | some (h, m) =>
    some
      { time := toString h ++ ":" ++ zfill2 (toString m)
        sequence := p.pcvaSequence
        days :=
          if p.pcvaOneTime == "1" then ["Once"]
          else if p.pcvaDays == "daily" then ["Daily"]
          else ((pySplit p.pcvaDays ',').map pyStrip).filter (· ≠ "")
        enabled := p.loaded }

/-- `MacOSScheduler.list_alarms`. -/
def macListAlarms (store : List MacPlist) : List AlarmEntry :=
  (macSortByName (store.filter (fun p => macGlobMatch p.fileName))).filterMap
    macParseEntry

/-- The `job_days` string computed inside `MacOSScheduler.remove_alarm`
(note: the `daily` check comes before the one-time check there). -/
def macJobDays (p : MacPlist) : String :=
  if p.pcvaDays == "daily" then "Daily"
  else if p.pcvaOneTime == "1" then "Once"
  else joinSep ", " ((pySplit p.pcvaDays ',').map pyStrip)

/-- The match condition of `MacOSScheduler.remove_alarm` for one plist. -/
def macRemoveMatches (name : String) (h m : Nat) (daysStr : String)
    (p : MacPlist) : Bool :=
  macGlobMatch p.fileName && p.pcvaSequence == name &&
    (match calHead p.calendar with
     | some (hh, mm) => hh == h && mm == m
     | none => false) &&
    (daysStr == "" || macJobDays p == daysStr)

/-- `MacOSScheduler.remove_alarm`: unload and delete the first matching
plist file; record-level exceptions skip that record. -/
def macRemoveAlarm (store : List MacPlist) (name timeStr daysStr : String) :
    List MacPlist × Bool × String :=
  match parseTimeStr timeStr with
  | none => (store, false, "Remove Error: invalid time string")
  | some (h, m) =>
    match removeFirst (macRemoveMatches name h m daysStr) store with
    | none =>
      (store, false, "Alarm '" ++ name ++ "' at " ++ timeStr ++ " not found.")
    | some store' => (store', true, "Removed alarm: " ++ name)

/-! ### The Task Scheduler data model (`WindowsScheduler`) -/

/-- A task trigger: `Type == 1` (TimeTrigger), `Type == 3` (WeeklyTrigger
with a day-of-week bitmask), or some other type. -/
inductive WinTrigger
  | timeT
  | weeklyT (mask : Nat)
  | otherT
deriving Repr, DecidableEq

/-- One registered task.  `author`/`description` are `none` when reading the
COM property raises (the source wraps each access in `try/except`);
`trig = none` models a task with no triggers. -/
structure WinTask where
  name : String
  author : Option String
  description : Option String
  enabled : Bool
  trig : Option WinTrigger
deriving Repr, DecidableEq

/-- The two folders scanned: the dedicated `\PyCronVideoAlarm` folder and the
root folder (legacy tasks). -/
structure WinStore where
  appFolder : List WinTask
  rootTasks : List WinTask
deriving Repr, DecidableEq

/-- Process-level inputs of `WindowsScheduler.add_alarm`. -/
structure WinEnv where
  frozen : Bool
  executable : String
  scriptPath : String
deriving Repr, DecidableEq

/-- The `action.Arguments` string built by `WindowsScheduler.add_alarm`:
only `--delete-after` is appended for one-time alarms. -/
def winBuildArgs (frozen : Bool) (scriptPath name : String) (oneTime : Bool) :
    String :=
  (if frozen then "" else quoteArg scriptPath ++ " ") ++
    "--execute-sequence " ++ quoteArg name ++
    (if oneTime then " --delete-after" else "")

/-- Python `s.upper()` restricted to ASCII (the day abbreviations used here). -/
def pyUpper (s : String) : String :=
  String.mk (s.toList.map Char.toUpper)

/-- `day_map = {"SUN":1, "MON":2, ...}` with `.get(d.upper(), 0)`. -/
def winDayBit (d : String) : Nat :=
  let u := pyUpper d
  if u == "SUN" then 1 else if u == "MON" then 2 else if u == "TUE" then 4
  else if u == "WED" then 8 else if u == "THU" then 16 else if u == "FRI" then 32
  else if u == "SAT" then 64 else 0

/-- The weekly-trigger day mask: `127` for empty `days`, else the OR of bits. -/
def winDaysMask (days : List String) : Nat :=
  if days.isEmpty then 127 else days.foldl (fun m d => m ||| winDayBit d) 0

/-- The task registered by `WindowsScheduler.add_alarm` (name
`<seq-with-underscores>_<HH>_<MM>`, Author and `PyCron|seq|HH:MM`
description). -/
def winNewTask (t : CronTime) (name : String) (days : List String)
    (oneTime : Bool) : WinTask :=
  { name := replaceChar ' ' '_' name ++ "_" ++ pad2 t.hour ++ "_" ++ pad2 t.minute
    author := some "PyCronVideoAlarm"
    description := some ("PyCron|" ++ name ++ "|" ++ hhmmStr t.hour t.minute)
    enabled := true
    trig := some (if oneTime then .timeT else .weeklyT (winDaysMask days)) }

/-- `WindowsScheduler.add_alarm` (`none` store: `Schedule.Service` connection
failed at construction; `RegisterTaskDefinition` with flag 6 is modelled as
appending to the app folder). -/
def winAddAlarm (st : Option WinStore) (t : CronTime) (name : String)
    (days : List String) (oneTime : Bool) : Option WinStore × Bool × String :=
  match st with
  | none => (none, false, "Scheduler not initialized")
  | some s =>
    (some { s with appFolder := s.appFolder ++ [winNewTask t name days oneTime] },
      true, "Alarm set for " ++ hhmmStr t.hour t.minute)

/-- The listing entry produced by `WindowsScheduler._parse_task` (its `days`
field is a plain string, unlike the Linux/macOS adapters). -/
structure WinEntry where
  time : String
  sequence : String
  days : String
  enabled : Bool
deriving Repr, DecidableEq

/-- The `days_display` string of `_parse_task` strategy 1. -/
def winDaysDisplay (trig : Option WinTrigger) : String :=
  match trig with
  | some .timeT => "Once"
  | some (.weeklyT mask) =>
    let l := (if mask &&& 1 ≠ 0 then ["SUN"] else []) ++
      (if mask &&& 2 ≠ 0 then ["MON"] else []) ++
      (if mask &&& 4 ≠ 0 then ["TUE"] else []) ++
      (if mask &&& 8 ≠ 0 then ["WED"] else []) ++
      (if mask &&& 16 ≠ 0 then ["THU"] else []) ++
      (if mask &&& 32 ≠ 0 then ["FRI"] else []) ++
      (if mask &&& 64 ≠ 0 then ["SAT"] else [])
    if l.length < 7 then joinSep "," l else "Daily"
  | _ => "?"

/-- Python `task.Name.rsplit('_', 2)`. -/
def rsplitUnderscore2 (s : String) : List String :=
  let ps := pySplit s '_'
  if ps.length ≥ 3 then
    [joinSep "_" (ps.take (ps.length - 2)),
      (nthTok ps (ps.length - 2)).getD "",
      (nthTok ps (ps.length - 1)).getD ""]
  else ps

/-- `WindowsScheduler._parse_task`, strategy 2 (legacy `seq_HH_MM` names). -/
def winParseLegacy (t : WinTask) : Option WinEntry :=
  if strHasSub t.name "_" then
    match rsplitUnderscore2 t.name with
    | [s, hh, mm] =>
      match pyToNat hh, pyToNat mm with
      | some _, some _ =>
        some
          { time := hh ++ ":" ++ mm, sequence := s
            days := if t.trig == some .timeT then "Once" else "?"
            enabled := t.enabled }
      | _, _ => none
    | _ => none
  else none

/-- `WindowsScheduler._parse_task`: metadata strategy first, then the legacy
file-name strategy. -/
def winParseTask (t : WinTask) : Option WinEntry :=
  match t.description with
  | some d =>
    if strStarts d "PyCron|" then
      match pySplit d '|' with
      | _ :: seq :: time :: _ =>
        some { time := time, sequence := seq,
               days := winDaysDisplay t.trig, enabled := t.enabled }
      | _ => winParseLegacy t
    else winParseLegacy t
  | none => winParseLegacy t

/-- `WindowsScheduler.list_alarms`: the dedicated app folder is scanned with
no Author check; root-folder tasks are skipped unless
`RegistrationInfo.Author == "PyCronVideoAlarm"`. -/
def winListAlarms (st : Option WinStore) : List WinEntry :=
  match st with
  | none => []
  | some s =>
    s.appFolder.filterMap winParseTask ++
      (s.rootTasks.filter (fun t => t.author == some "PyCronVideoAlarm")).filterMap
        winParseTask

/-- The per-task match of `WindowsScheduler.remove_alarm`: metadata match
(description starts with `PyCron|<seq>|<time_str>`) or legacy file-name
match (name parts `<seq>_<hh>_<mm>` with matching numeric time and sequence,
space-mangled or not).  `isRoot` adds the Author guard. -/
def winRemoveMatches (name timeStr : String) (th tm : Nat) (isRoot : Bool)
    (t : WinTask) : Bool :=
  (!isRoot || t.author == some "PyCronVideoAlarm") &&
    ((match t.description with
      | some d => strStarts d ("PyCron|" ++ name ++ "|" ++ timeStr)
      | none => false) ||
     (strHasSub t.name "_" &&
       match rsplitUnderscore2 t.name with
       | [s, hh, mm] =>
         (match pyToNat hh, pyToNat mm with
          | some h, some m =>
            h == th && m == tm && (s == name || s == replaceChar ' ' '_' name)
          | _, _ => false)
       | _ => false))

/-- `WindowsScheduler.remove_alarm`: scan the app folder, then the root
folder, deleting the first matching task. -/
def winRemoveAlarm (st : Option WinStore) (name timeStr : String) :
    Option WinStore × Bool × String :=
  match st with
  | none => (none, false, "Scheduler not initialized")
  | some s =>
    match parseTimeStr timeStr with
    | none => (some s, false, "Error removing alarm: invalid time string")
    | some (th, tm) =>
      match extractFirst (winRemoveMatches name timeStr th tm false) s.appFolder with
      | some (t, app') =>
        (some { s with appFolder := app' }, true, "Deleted " ++ t.name ++ " (Match)")
      | none =>
        match extractFirst (winRemoveMatches name timeStr th tm true) s.rootTasks with
        | some (t, root') =>
          (some { s with rootTasks := root' }, true, "Deleted " ++ t.name ++ " (Match)")
        | none =>
          (some s, false,
            "Alarm '" ++ name ++ "' at " ++ timeStr ++ " not found.")

/-- `WindowsScheduler.get_debug_info` (header only; the task dump reads COM
state abstracted here as the store itself). -/
def winDebugInfo (st : Option WinStore) : String :=
  match st with
  | none => "Windows Scheduler not initialized."
  | some _ => "=== Windows Scheduler Debug Info ==="

/-! ### The unified scheduler facade (`AlarmScheduler`, `src/logic/scheduler.py`)

`AlarmScheduler.__init__` branches on `sys.platform`: a platform starting
with `"linux"` constructs the `LinuxScheduler`, exactly `"win32"` constructs
the `WindowsScheduler`, every other platform (including `"darwin"`) logs
"Unsupported platform" and leaves `platform_scheduler = None`.  A failing
adapter import (`ImportError`) also leaves it `None`. -/

/-- The adapter held by the facade, with its native-store handle. -/
inductive PlatformAdapter
  | linuxA (cron : Option (List CronJob))
  | winA (st : Option WinStore)
deriving Repr, DecidableEq

structure Facade where
  adapter : Option PlatformAdapter
deriving Repr, DecidableEq

/-- `AlarmScheduler.__init__`: the platform dispatch.  `importOk = false`
injects an `ImportError` while loading the platform module. -/
def buildFacade (platform : String) (importOk : Bool)
    (linuxInit : Option (List CronJob)) (winInit : Option WinStore) : Facade :=
  if strStarts platform "linux" then
    { adapter := if importOk then some (.linuxA linuxInit) else none }
  else if platform == "win32" then
    { adapter := if importOk then some (.winA winInit) else none }
  else
    { adapter := none }

/-- `AlarmScheduler.add_alarm` (forwarding; `days or []` handled by the
caller passing a list). -/
def facadeAddAlarm (f : Facade) (le : LinuxEnv) (wf : Option String)
    (t : CronTime) (name : String) (days : List String) (oneTime : Bool) :
    Facade × Bool × String :=
  match f.adapter with
  | none => (f, false, "No platform scheduler available")
  | some (.linuxA c) =>
    let (c', ok, msg) := linuxAddAlarm c wf le t name days oneTime
    (⟨some (.linuxA c')⟩, ok, msg)
  | some (.winA s) =>
    let (s', ok, msg) := winAddAlarm s t name days oneTime
    (⟨some (.winA s')⟩, ok, msg)

/-- `AlarmScheduler.list_alarms` (the two adapters return differently shaped
entries, as in the source). -/
def facadeListAlarms (f : Facade) : List (AlarmEntry ⊕ WinEntry) :=
  match f.adapter with
  | none => []
  | some (.linuxA c) => (linuxListAlarms c).map Sum.inl
  | some (.winA s) => (winListAlarms s).map Sum.inr

/-- `AlarmScheduler.remove_alarm`. -/
def facadeRemoveAlarm (f : Facade) (wf : Option String)
    (name timeStr daysStr : String) : Facade × Bool × String :=
  match f.adapter with
  | none => (f, false, "No platform scheduler available")
  | some (.linuxA c) =>
    let (c', ok, msg) := linuxRemoveAlarm c wf name timeStr daysStr
    (⟨some (.linuxA c')⟩, ok, msg)
  | some (.winA s) =>
    let (s', ok, msg) := winRemoveAlarm s name timeStr
    (⟨some (.winA s')⟩, ok, msg)

/-- `AlarmScheduler.get_debug_info`. -/
def facadeDebugInfo (f : Facade) (userInfo : String) : String :=
  match f.adapter with
  | none => "Debug info not available for this platform."
  | some (.linuxA c) => linuxDebugInfo c userInfo
  | some (.winA s) => winDebugInfo s

/-! ### The self-deletion path of `main.py` (macOS and Windows branches)

The `--delete-after` block of `main.py` is platform-specific.  The macOS
branch first removes the plist file named by the supplied `--job-id` if it
exists; otherwise it soft-matches: it deletes the first globbed plist whose
`PCVA_SEQUENCE` equals the sequence name and whose `PCVA_ONE_TIME` is
`"1"` — `--scheduled-time` is never consulted there.  The Windows branch
performs no job-id or scheduled-time matching at all: it constructs a fresh
facade and calls `remove_alarm(sequence, f"{now.hour}:{now.minute:02d}")`
with the current wall-clock time. -/

/-- The macOS tier-1 test: the plist file named
`<label>.<job_id>.plist` exists (`os.path.exists` on the exact path). -/
def macJobIdFileMatch (id : String) (p : MacPlist) : Bool :=
  p.fileName == macLabelBase ++ "." ++ id ++ ".plist"

/-- The macOS fallback test of `main.py`: a globbed plist whose
`PCVA_SEQUENCE` equals the sequence and whose `PCVA_ONE_TIME` is `"1"`. -/
def macSoftMatch (seq : String) (p : MacPlist) : Bool :=
  macGlobMatch p.fileName && p.pcvaSequence == seq && p.pcvaOneTime == "1"

/-- The macOS `--delete-after` branch of `main.py`: job-id file removal
first; if that did not delete (no `--job-id`, or the file is absent), the
sequence-name soft match — unconditionally, whatever `--scheduled-time`
holds. -/
def selfDeleteMac (store : List MacPlist) (seq : String)
    (jobId : Option String) : List MacPlist × Bool :=
  match (match jobId with
         | some id => removeFirst (macJobIdFileMatch id) store
         | none => none) with
  | some s' => (s', true)
  | none =>
    match removeFirst (macSoftMatch seq) store with
    | some s' => (s', true)
    | none => (store, false)

/-- The Windows `--delete-after` branch of `main.py`: delegate to the
adapter's `remove_alarm` with the sequence name and the current time
rendered `f"{now.hour}:{now.minute:02d}"`. -/
def selfDeleteWin (st : Option WinStore) (seq : String)
    (nowHour nowMinute : Nat) : Option WinStore × Bool × String :=
  winRemoveAlarm st seq (toString nowHour ++ ":" ++ pad2 nowMinute)

/-! ### Concrete fixtures used by witnesses and counterexamples -/

def demoEnv : LinuxEnv :=
  { uid := 1000, frozen := false, executable := "/usr/bin/python3",
    scriptPath := "/opt/pcva/src/main.py",
    freshId := "5b2c2e91-4a77-4d36-9c1e-0f6a2b9a7c11" }

def macDemoEnv : MacEnv :=
  { frozen := false, executable := "/usr/bin/python3",
    scriptPath := "/opt/pcva/src/main.py",
    freshId := "77aa0f33-2d10-4c55-8c8e-b1a9e3d4f5a6" }

def t730 : CronTime := { month := 10, day := 12, hour := 7, minute := 30 }

def t2200 : CronTime := { month := 10, day := 12, hour := 22, minute := 0 }

def allSeven : List String := ["MON", "TUE", "WED", "THU", "FRI", "SAT", "SUN"]

/-- A crontab record not created by this application (no marker comment). -/
def foreignJob : CronJob :=
  { command := "/usr/bin/backup.sh --quiet", comment := "#nightly-backup",
    minute := 5, hour := 3, monthField := none, dayField := none,
    dowField := "*", enabled := true }

/-- A one-time job for sequence `Wakeup` at 7:30 (scan-order first). -/
def jWakeup : CronJob :=
  linuxNewJob { demoEnv with freshId := "aaaa-1111" } t730 "Wakeup" [] true

/-- A one-time job for sequence `Wake` at 7:30 (scan-order second). -/
def jWake : CronJob :=
  linuxNewJob { demoEnv with freshId := "bbbb-2222" } t730 "Wake" [] true

/-- A one-time plist for sequence `Wake` at 7:30, as written by the Launchd
adapter. -/
def macWakePlist : MacPlist := macNewPlist macDemoEnv t730 "Wake" [] true true

/-- A task created by this application in the dedicated folder. -/
def winOwnTask : WinTask :=
  { name := "Wake_07_30", author := some "PyCronVideoAlarm",
    description := some "PyCron|Wake|07:30", enabled := true,
    trig := some .timeT }

/-- A foreign task sitting inside the dedicated `\PyCronVideoAlarm` folder:
its Author is not the application marker. -/
def winForeignTask : WinTask :=
  { name := "evil", author := some "EvilCorp",
    description := some "PyCron|Evil|7:30", enabled := true,
    trig := some .timeT }

/-- A Task Scheduler state mixing one owned and one foreign record in the
app folder. -/
def winMixedStore : WinStore :=
  { appFolder := [winOwnTask, winForeignTask], rootTasks := [] }

/-! ### Helper lemmas -/

theorem charsStart_append_self (x y : List Char) : charsStart (x ++ y) x = true := by
  induction x with
  | nil => cases y <;> rfl
  | cons c cs ih => simp [charsStart, ih]

theorem charsHasSub_right (x pat : List Char) : charsHasSub pat (x ++ pat) = true := by
  induction x with
  | nil =>
    cases pat with
    | nil => rfl
    | cons c cs =>
      have h := charsStart_append_self (c :: cs) []
      simp at h
      simp [charsHasSub, h]
  | cons c cs ih => simp [charsHasSub, ih]

/-- A string ends with (hence contains) its right append operand. -/
theorem strHasSub_cat (a b : String) : strHasSub (a ++ b) b = true := by
  unfold strHasSub
  rw [show (a ++ b).toList = a.toList ++ b.toList by simp [String.toList]]
  exact charsHasSub_right a.toList b.toList

/-- A string whose character list ends with `pat`'s character list contains
`pat`. -/
theorem strHasSub_of_decomp (s pat : String) (A : List Char)
    (h : s.toList = A ++ pat.toList) : strHasSub s pat = true := by
  unfold strHasSub
  rw [h]
  exact charsHasSub_right A pat.toList

theorem removeFirst_eq_none_iff (p : α → Bool) (l : List α) :
    removeFirst p l = none ↔ ∀ x ∈ l, p x = false := by
  induction l with
  | nil => simp [removeFirst]
  | cons a as ih =>
    by_cases h : p a = true
    · simp [removeFirst, h]
    · simp only [Bool.not_eq_true] at h
      simp [removeFirst, h, ih]

theorem removeFirst_some_decomp (p : α → Bool) (l l' : List α)
    (h : removeFirst p l = some l') :
    ∃ pre x post, l = pre ++ x :: post ∧ l' = pre ++ post ∧ p x = true ∧
      ∀ y ∈ pre, p y = false := by
  induction l generalizing l' with
  | nil => simp [removeFirst] at h
  | cons a as ih =>
    by_cases hp : p a = true
    · simp [removeFirst, hp] at h
      exact ⟨[], a, as, by simp, by simp [h], hp, by simp⟩
    · simp only [Bool.not_eq_true] at hp
      simp [removeFirst, hp] at h
      obtain ⟨as', has', rfl⟩ := h
      obtain ⟨pre, x, post, h1, h2, h3, h4⟩ := ih as' has'
      refine ⟨a :: pre, x, post, by simp [h1], by simp [h2], h3, ?_⟩
      intro y hy
      rcases List.mem_cons.mp hy with rfl | hy
      · exact hp
      · exact h4 y hy

theorem removeFirst_countP (p : α → Bool) (l l' : List α)
    (h : removeFirst p l = some l') :
    l.countP p = l'.countP p + 1 := by
  obtain ⟨pre, x, post, rfl, rfl, hx, -⟩ := removeFirst_some_decomp p l l' h
  simp [List.countP_append, List.countP_cons, hx]
  omega

/-- Removing an element satisfying `p` leaves the records not satisfying `q`
untouched, provided `p` implies `q`. -/
theorem removeFirst_filter_not (p q : α → Bool) (l l' : List α)
    (h : removeFirst p l = some l')
    (hpq : ∀ x, p x = true → q x = true) :
    l'.filter (fun x => !q x) = l.filter (fun x => !q x) := by
  obtain ⟨pre, x, post, rfl, rfl, hx, -⟩ := removeFirst_some_decomp p l l' h
  simp [List.filter_append, hpq x hx]

/-- Filtering before a guarded `filterMap` is the identity. -/
theorem filterMap_guard_filter (p : α → Bool) (f : α → Option β) (l : List α) :
    l.filterMap (fun x => if p x then f x else none) =
      (l.filter p).filterMap (fun x => if p x then f x else none) := by
  induction l with
  | nil => rfl
  | cons a as ih =>
    by_cases h : p a = true
    · simp [List.filter_cons, h, List.filterMap_cons, ih]
    · simp only [Bool.not_eq_true] at h
      simp [List.filter_cons, h, List.filterMap_cons, ih]

/-- A guarded `filterMap` over records all failing the guard is empty. -/
theorem filterMap_guard_nil (p : α → Bool) (f : α → Option β) (l : List α)
    (h : ∀ x ∈ l, p x = false) :
    l.filterMap (fun x => if p x then f x else none) = [] := by
  induction l with
  | nil => rfl
  | cons a as ih =>
    have ha := h a (by simp)
    simp [List.filterMap_cons, ha, ih (fun x hx => h x (by simp [hx]))]

theorem removeFirst_append_first (p : α → Bool) (pre post : List α) (j : α)
    (hpre : ∀ k ∈ pre, p k = false) (hj : p j = true) :
    removeFirst p (pre ++ j :: post) = some (pre ++ post) := by
  induction pre with
  | nil => simp [removeFirst, hj]
  | cons a as ih =>
    have ha := hpre a (by simp)
    simp [removeFirst, ha, ih (fun k hk => hpre k (by simp [hk]))]

theorem extractFirst_append_first (p : α → Bool) (pre post : List α) (j : α)
    (hpre : ∀ k ∈ pre, p k = false) (hj : p j = true) :
    extractFirst p (pre ++ j :: post) = some (j, pre ++ post) := by
  induction pre with
  | nil => simp [extractFirst, hj]
  | cons a as ih =>
    have ha := hpre a (by simp)
    simp [extractFirst, ha, ih (fun k hk => hpre k (by simp [hk]))]

theorem extractFirst_some_decomp (p : α → Bool) (l : List α) (x : α)
    (l' : List α) (h : extractFirst p l = some (x, l')) :
    ∃ pre post, l = pre ++ x :: post ∧ l' = pre ++ post ∧ p x = true ∧
      ∀ y ∈ pre, p y = false := by
  induction l generalizing l' with
  | nil => simp [extractFirst] at h
  | cons a as ih =>
    by_cases hp : p a = true
    · simp [extractFirst, hp] at h
      obtain ⟨rfl, rfl⟩ := h
      exact ⟨[], as, by simp, by simp, hp, by simp⟩
    · simp only [Bool.not_eq_true] at hp
      simp [extractFirst, hp] at h
      obtain ⟨r, rest, hex, hrx, hl⟩ := h
      subst hrx
      subst hl
      obtain ⟨pre, post, h1, h2, h3, h4⟩ := ih rest hex
      refine ⟨a :: pre, post, by simp [h1], by simp [h2], h3, ?_⟩
      intro y hy
      rcases List.mem_cons.mp hy with rfl | hy
      · exact hp
      · exact h4 y hy

/-- Extracting an element satisfying `p` leaves the records not satisfying
`q` untouched, provided `p` implies `q`. -/
theorem extractFirst_filter_not (p q : α → Bool) (l : List α) (x : α)
    (l' : List α) (h : extractFirst p l = some (x, l'))
    (hpq : ∀ y, p y = true → q y = true) :
    l'.filter (fun y => !q y) = l.filter (fun y => !q y) := by
  obtain ⟨pre, post, rfl, rfl, hx, -⟩ := extractFirst_some_decomp p _ x l' h
  simp [List.filter_append, hpq x hx]

/-! ### C1 -/

/-- C1, counterexample: on the Task-Scheduler adapter, `add_alarm` with
`one_time=True` appends only `--delete-after`; the built argument string
contains neither `--job-id` nor `--scheduled-time`, refuting the claim that
every adapter appends all three flags. -/
theorem c1_counterexample :
    winBuildArgs false "/opt/pcva/main.py" "Wake" true =
      "\"/opt/pcva/main.py\" --execute-sequence \"Wake\" --delete-after" ∧
    strHasSub (winBuildArgs false "/opt/pcva/main.py" "Wake" true) "--job-id" =
      false ∧
    strHasSub (winBuildArgs false "/opt/pcva/main.py" "Wake" true)
      "--scheduled-time" = false := by
  refine ⟨by decide, by decide, by decide⟩

/-- C1, amended: the Cron and Launchd adapters append, after
`--execute-sequence "<name>"`, the flags `--delete-after`,
`--job-id <fresh uuid>` and `--scheduled-time <HH:MM>`; the Task-Scheduler
adapter appends only `--delete-after` (no job id, no scheduled time). -/
theorem c1_amended_thm (e : LinuxEnv) (me : MacEnv) (t : CronTime)
    (name : String) (fr : Bool) (sp : String) :
    linuxCmd e t name true =
      linuxCmd e t name false ++ " --delete-after --job-id " ++ e.freshId ++
        " --scheduled-time " ++ hhmmStr t.hour t.minute ∧
    strHasSub (linuxCmd e t name true)
      ("--execute-sequence " ++ quoteArg name ++ " --delete-after --job-id " ++
        e.freshId ++ " --scheduled-time " ++ hhmmStr t.hour t.minute) = true ∧
    macBuildCmd me name true t =
      macBuildCmd me name false t ++
        ["--delete-after", "--job-id", me.freshId, "--scheduled-time",
          hhmmStr t.hour t.minute] ∧
    (∃ pre, macBuildCmd me name false t = pre ++ ["--execute-sequence", name]) ∧
    winBuildArgs fr sp name true = winBuildArgs fr sp name false ++ " --delete-after" := by
  refine ⟨by simp [linuxCmd], ?_, by simp [macBuildCmd], ?_, by simp [winBuildArgs]⟩
  · apply strHasSub_of_decomp _ _
      ((linuxEnvVars e ++
        (if e.frozen then quoteArg e.executable
         else quoteArg e.executable ++ " " ++ quoteArg e.scriptPath) ++ " ").toList)
    simp [linuxCmd, linuxBaseCmd, String.toList,
      show (" --execute-sequence " : String).data =
        (" " : String).data ++ ("--execute-sequence " : String).data from by decide]
  · exact ⟨if me.frozen then [me.executable] else [me.executable, me.scriptPath],
      by cases hf : me.frozen <;> simp [macBuildCmd, hf]⟩

/-! ### C2 -/

/-- C2: on the fire path with `--delete-after`, for every combination of
registered handlers and handler outcomes (success, failure, or a raising
handler) and every outcome of the removal itself (including a failing
`cron.write`), the removal attempt comes strictly after all action events,
it happens for every action outcome, and the exit code is 0; without
`--delete-after` no removal is attempted and the exit code is also 0. -/
theorem c2_fire_path_thm (registered : String → Bool)
    (outcome : String → Except Unit Bool) (actions : List String)
    (seq : String) (jobId schedTime : Option String) (store : List CronJob)
    (wf : Bool) :
    (firePath registered outcome actions seq jobId schedTime store wf true).exitCode = 0 ∧
    (firePath registered outcome actions seq jobId schedTime store wf false).exitCode = 0 ∧
    (firePath registered outcome actions seq jobId schedTime store wf true).events =
      actions.map (fun ty => FireEv.actionRun ty (executeAction registered outcome ty)) ++
        [FireEv.removalAttempt (selfDeleteLinux store seq jobId schedTime wf).2] ∧
    (firePath registered outcome actions seq jobId schedTime store wf true).events.getLast? =
      some (FireEv.removalAttempt (selfDeleteLinux store seq jobId schedTime wf).2) ∧
    (firePath registered outcome actions seq jobId schedTime store wf false).events =
      actions.map (fun ty => FireEv.actionRun ty (executeAction registered outcome ty)) ∧
    (firePath registered outcome actions seq jobId schedTime store wf true).store =
      (selfDeleteLinux store seq jobId schedTime wf).1 := by
  refine ⟨rfl, rfl, by simp [firePath], by simp [firePath], by simp [firePath],
    by simp [firePath]⟩

/-! ### C3 -/

set_option maxRecDepth 100000 in
/-- C3, counterexample: a crontab holding a single owned one-time job whose
command contains both the sequence name and `--delete-after`; invoked with
neither `--job-id` nor `--scheduled-time`, the self-deletion path of
`main.py` removes nothing — there is no third soft-match tier. -/
theorem c3_counterexample :
    isOwnedJob jWake = true ∧
    strHasSub jWake.command "Wake" = true ∧
    strHasSub jWake.command "--delete-after" = true ∧
    selfDeleteLinux [jWake] "Wake" none none false = ([jWake], false) := by
  refine ⟨by decide, by decide, by decide, by decide⟩

/-- C3, amended: the self-deletion tiers are platform-specific.  On Linux
there are exactly two tiers, tried in order with first hit winning — (1)
exact job-id match (marker suffix equals `--job-id` and the command
contains the exact `--execute-sequence "<name>"` substring), (2)
scheduled-time match (owned record containing the sequence name and
`--delete-after` at the given hour/minute) — and no third tier: with
neither flag supplied, or neither tier matching, no cron job is removed.
On macOS, the plist file named by `--job-id` is removed if present,
otherwise an unconditional soft match removes the first owned one-time
plist whose stored sequence equals the sequence name — applied whenever the
job-id deletion did not happen, with `--scheduled-time` never consulted.
On Windows there is no job-id or scheduled-time matching at all: the branch
calls the adapter's `remove_alarm` with the sequence name and the current
wall-clock time. -/
theorem c3_amended_thm (store : List CronJob) (plists : List MacPlist)
    (wst : Option WinStore) (seq id ts : String) (h m nh nm : Nat)
    (hts : parseTimeStr ts = some (h, m)) :
    selfDeleteLinux store seq none none false = (store, false) ∧
    (∀ s', removeFirst (tier1Match seq id) store = some s' →
      selfDeleteLinux store seq (some id) (some ts) false = (s', true)) ∧
    (removeFirst (tier1Match seq id) store = none →
      selfDeleteLinux store seq (some id) (some ts) false =
        (match removeFirst (tier2Match seq h m) store with
         | some s' => (s', true)
         | none => (store, false))) ∧
    (∀ s', removeFirst (macJobIdFileMatch id) plists = some s' →
      selfDeleteMac plists seq (some id) = (s', true)) ∧
    (removeFirst (macJobIdFileMatch id) plists = none →
      selfDeleteMac plists seq (some id) = selfDeleteMac plists seq none) ∧
    (selfDeleteMac plists seq none =
      (match removeFirst (macSoftMatch seq) plists with
       | some s' => (s', true)
       | none => (plists, false))) ∧
    (selfDeleteWin wst seq nh nm =
      winRemoveAlarm wst seq (toString nh ++ ":" ++ pad2 nm)) := by
  refine ⟨by simp [selfDeleteLinux], ?_, ?_, ?_, ?_, rfl, rfl⟩
  · intro s' h1
    simp [selfDeleteLinux, h1]
  · intro h1
    simp only [selfDeleteLinux, h1, hts]
    cases removeFirst (tier2Match seq h m) store <;> rfl
  · intro s' h1
    simp [selfDeleteMac, h1]
  · intro h1
    simp [selfDeleteMac, h1]

set_option maxRecDepth 100000 in
/-- Witness for C3 amended at concrete one-record stores: on Linux with
neither flag nothing is removed while the matching job id deletes by tier 1;
on macOS the job-id file match deletes the plist, and without a job id the
sequence soft match deletes it too. -/
theorem c3_amended_witness :
    selfDeleteLinux [jWake] "Wake" none none false = ([jWake], false) ∧
    selfDeleteLinux [jWake] "Wake" (some "bbbb-2222") (some "07:30") false =
      ([], true) ∧
    selfDeleteMac [macWakePlist] "Wake"
      (some "77aa0f33-2d10-4c55-8c8e-b1a9e3d4f5a6") = ([], true) ∧
    selfDeleteMac [macWakePlist] "Wake" none = ([], true) :=
  ⟨(c3_amended_thm [jWake] [] none "Wake" "bbbb-2222" "07:30" 7 30 0 0
      (by decide)).1,
   (c3_amended_thm [jWake] [] none "Wake" "bbbb-2222" "07:30" 7 30 0 0
      (by decide)).2.1 [] (by decide),
   (c3_amended_thm [] [macWakePlist] none "Wake"
      "77aa0f33-2d10-4c55-8c8e-b1a9e3d4f5a6" "07:30" 7 30 0 0
      (by decide)).2.2.2.1 [] (by decide),
   ((c3_amended_thm [] [macWakePlist] none "Wake"
      "77aa0f33-2d10-4c55-8c8e-b1a9e3d4f5a6" "07:30" 7 30 0 0
      (by decide)).2.2.2.2.2.1).trans (by decide)⟩

/-! ### C4 -/

/-- C4, counterexample: on `sys.platform == "darwin"` the facade constructs
no adapter at all (the `AlarmScheduler.__init__` dispatch has no macOS
branch), refuting the claim that the Launchd adapter is instantiated on
macOS. -/
theorem c4_counterexample :
    (buildFacade "darwin" true (some []) (some { appFolder := [], rootTasks := [] })).adapter = none ∧
    facadeAddAlarm (buildFacade "darwin" true (some []) (some { appFolder := [], rootTasks := [] }))
        demoEnv none t730 "Wake" [] true =
      (buildFacade "darwin" true (some []) (some { appFolder := [], rootTasks := [] }),
        false, "No platform scheduler available") := by
  refine ⟨by decide, ?_⟩
  rfl

/-- C4, amended: at construction the facade detects the host OS and
instantiates exactly one adapter, with the Cron adapter on Linux and the
Task-Scheduler adapter on Windows; on every other platform — including
macOS, whose adapter class exists but is never selected — no adapter is
constructed and every method returns its safe default. -/
theorem c4_amended_thm (p : String) (li : Option (List CronJob))
    (wi : Option WinStore) (le : LinuxEnv) (wf : Option String)
    (t : CronTime) (name ts ds ui : String) (days : List String) (ot : Bool) :
    (buildFacade "linux" true li wi).adapter = some (.linuxA li) ∧
    (buildFacade "win32" true li wi).adapter = some (.winA wi) ∧
    (strStarts p "linux" = false → p ≠ "win32" →
      (buildFacade p true li wi).adapter = none) ∧
    facadeAddAlarm { adapter := none } le wf t name days ot =
      ({ adapter := none }, false, "No platform scheduler available") ∧
    facadeListAlarms { adapter := none } = [] ∧
    facadeRemoveAlarm { adapter := none } wf name ts ds =
      ({ adapter := none }, false, "No platform scheduler available") ∧
    facadeDebugInfo { adapter := none } ui =
      "Debug info not available for this platform." := by
  refine ⟨by simp [buildFacade, show strStarts "linux" "linux" = true from by decide],
    by simp [buildFacade, show strStarts "win32" "linux" = false from by decide],
    ?_, rfl, rfl, rfl, rfl⟩
  intro h1 h2
  simp [buildFacade, h1, h2]

/-- Witness for C4 amended at `p = "darwin"`. -/
theorem c4_amended_witness :
    (buildFacade "darwin" true (some []) none).adapter = none :=
  (c4_amended_thm "darwin" (some []) none demoEnv none t730 "Wake" "7:30" ""
    "" [] true).2.2.1 (by decide) (by decide)

/-! ### C5 -/

set_option maxRecDepth 100000 in
/-- C5, counterexample: a Task Scheduler state whose dedicated app folder
holds one application task and one foreign task (Author `EvilCorp`);
`WindowsScheduler.list_alarms` returns both entries, and
`WindowsScheduler.remove_alarm("Evil", "7:30")` deletes the foreign,
marker-less task — refuting "only marker-carrying records are listed and
no record lacking the marker is ever removed, on every adapter". -/
theorem c5_counterexample :
    winForeignTask.author ≠ some "PyCronVideoAlarm" ∧
    winListAlarms (some winMixedStore) =
      [{ time := "07:30", sequence := "Wake", days := "Once", enabled := true },
       { time := "7:30", sequence := "Evil", days := "Once", enabled := true }] ∧
    winRemoveAlarm (some winMixedStore) "Evil" "7:30" =
      (some ⟨[winOwnTask], []⟩, true, "Deleted " ++ "evil" ++ " (Match)") := by
  refine ⟨by decide, by decide, by decide⟩

/-- C5, amended: the Cron adapter's `list_alarms` sees exactly the
marker-carrying records, and its `remove_alarm` leaves the marker-less
records untouched on every store and every input; the Task-Scheduler
adapter applies the Author-marker check only to root-folder tasks — its
listing is unchanged when marker-less root tasks are dropped, its removal
never touches a marker-less root task — while tasks inside the dedicated
app folder are listed and matched for removal regardless of their Author
(the app-folder match condition is Author-independent, and the first
matching app-folder task is deleted with no marker requirement). -/
theorem c5_amended_thm (cron : List CronJob) (wf : Option String)
    (name ts ds : String) (st : WinStore) (th tm : Nat) (tk : WinTask)
    (a : Option String) :
    linuxListAlarms (some cron) = linuxListAlarms (some (cron.filter isOwnedJob)) ∧
    ((linuxRemoveAlarm (some cron) wf name ts ds).1.getD []).filter
        (fun j => !isOwnedJob j) = cron.filter (fun j => !isOwnedJob j) ∧
    winListAlarms (some st) =
      winListAlarms (some
        ⟨st.appFolder,
          st.rootTasks.filter (fun t => t.author == some "PyCronVideoAlarm")⟩) ∧
    winRemoveMatches name ts th tm false { tk with author := a } =
      winRemoveMatches name ts th tm false tk ∧
    (parseTimeStr ts = some (th, tm) →
      ∀ pre t post, st.appFolder = pre ++ t :: post →
        winRemoveMatches name ts th tm false t = true →
        (∀ k ∈ pre, winRemoveMatches name ts th tm false k = false) →
        winRemoveAlarm (some st) name ts =
          (some ⟨pre ++ post, st.rootTasks⟩, true,
            "Deleted " ++ t.name ++ " (Match)")) ∧
    ((winRemoveAlarm (some st) name ts).1.getD ⟨[], []⟩).rootTasks.filter
        (fun t => !(t.author == some "PyCronVideoAlarm")) =
      st.rootTasks.filter (fun t => !(t.author == some "PyCronVideoAlarm")) := by
  refine ⟨?_, ?_, ?_, ?_, ?_, ?_⟩
  · simp only [linuxListAlarms]
    exact filterMap_guard_filter _ _ _
  · unfold linuxRemoveAlarm
    cases hp : parseTimeStr ts with
    | none => simp
    | some hm =>
      obtain ⟨h, m⟩ := hm
      cases hr : removeFirst (linuxRemoveMatches name h m ds) cron with
      | none => simp [hr]
      | some s' =>
        cases wf with
        | some err => simp [hr]
        | none =>
          simp only [hr, Option.getD_some]
          refine removeFirst_filter_not _ isOwnedJob _ _ hr ?_
          intro x hx
          simp only [linuxRemoveMatches, Bool.and_eq_true] at hx
          exact hx.1.1.1.1
  · simp [winListAlarms, List.filter_filter]
  · simp [winRemoveMatches]
  · intro hp pre t post hdec hmatch hpre
    have hex := extractFirst_append_first
      (winRemoveMatches name ts th tm false) pre post t hpre hmatch
    simp only [winRemoveAlarm, hp, hdec, hex]
  · unfold winRemoveAlarm
    cases hp : parseTimeStr ts with
    | none => simp
    | some hm =>
      obtain ⟨h1, m1⟩ := hm
      cases ha : extractFirst (winRemoveMatches name ts h1 m1 false)
          st.appFolder with
      | some r => simp [ha]
      | none =>
        cases hr : extractFirst (winRemoveMatches name ts h1 m1 true)
            st.rootTasks with
        | none => simp [ha, hr]
        | some r =>
          simp only [ha, hr, Option.getD_some]
          refine extractFirst_filter_not _ _ _ _ _ hr ?_
          intro y hy
          simp only [winRemoveMatches, Bool.not_true, Bool.false_or,
            Bool.and_eq_true] at hy
          exact hy.1

set_option maxRecDepth 400000 in
/-- Witness for C5 amended: in the mixed store, `remove_alarm("Evil",
"7:30")` deletes the foreign, marker-less task sitting in the app folder
(the owned `Wake` task does not match and is kept). -/
theorem c5_amended_witness :
    winRemoveAlarm (some winMixedStore) "Evil" "7:30" =
      (some ⟨[winOwnTask], []⟩, true, "Deleted " ++ "evil" ++ " (Match)") :=
  (c5_amended_thm [] none "Evil" "7:30" "" winMixedStore 7 30 winOwnTask
      none).2.2.2.2.1 (by decide) [winOwnTask] winForeignTask []
    (by decide) (by decide) (by decide)

/-! ### C6 -/

/-- C6: no modelled error path escapes the adapter boundary — a missing
native handle or an injected native-API failure makes `add_alarm` and
`remove_alarm` return `(False, message)` tuples and `list_alarms` return
`[]`, on the Cron and Task-Scheduler adapters alike, and the facade with no
constructed adapter returns `(False, "No platform scheduler available")`
or `[]`. -/
theorem c6_error_handling_thm (le : LinuxEnv) (t : CronTime)
    (name ts ds err : String) (days : List String) (ot : Bool)
    (store : List CronJob) (wf : Option String) (h m : Nat) (s' : List CronJob) :
    linuxAddAlarm none wf le t name days ot =
      (none, false, "Crontab not available. Check logs for details.") ∧
    linuxAddAlarm (some store) (some err) le t name days ot =
      (some store, false, "Crontab Error: " ++ err) ∧
    linuxRemoveAlarm none wf name ts ds = (none, false, "Crontab not available") ∧
    (parseTimeStr ts = none →
      linuxRemoveAlarm (some store) wf name ts ds =
        (some store, false, "Remove Error: invalid time string")) ∧
    (parseTimeStr ts = some (h, m) →
      removeFirst (linuxRemoveMatches name h m ds) store = some s' →
      linuxRemoveAlarm (some store) (some err) name ts ds =
        (some store, false, "Remove Error: " ++ err)) ∧
    (parseTimeStr ts = some (h, m) →
      removeFirst (linuxRemoveMatches name h m ds) store = none →
      linuxRemoveAlarm (some store) wf name ts ds =
        (some store, false,
          "Alarm '" ++ name ++ "' at " ++ ts ++ " not found in crontab.")) ∧
    linuxListAlarms none = [] ∧
    winAddAlarm none t name days ot = (none, false, "Scheduler not initialized") ∧
    winRemoveAlarm none name ts = (none, false, "Scheduler not initialized") ∧
    facadeAddAlarm { adapter := none } le wf t name days ot =
      ({ adapter := none }, false, "No platform scheduler available") ∧
    facadeListAlarms { adapter := none } = [] ∧
    facadeRemoveAlarm { adapter := none } wf name ts ds =
      ({ adapter := none }, false, "No platform scheduler available") := by
  refine ⟨rfl, rfl, rfl, ?_, ?_, ?_, rfl, rfl, rfl, rfl, rfl, rfl⟩
  · intro h1
    simp [linuxRemoveAlarm, h1]
  · intro h1 h2
    simp [linuxRemoveAlarm, h1, h2]
  · intro h1 h2
    simp [linuxRemoveAlarm, h1, h2]

set_option maxRecDepth 400000 in
/-- Witness for C6 at concrete error inputs: a malformed time string, an
injected `cron.write` failure, and a removal on an empty crontab. -/
theorem c6_witness :
    linuxRemoveAlarm (some [jWake]) none "Wake" "bad" "" =
      (some [jWake], false, "Remove Error: invalid time string") ∧
    linuxRemoveAlarm (some [jWake]) (some "disk full") "Wake" "7:30" "" =
      (some [jWake], false, "Remove Error: disk full") ∧
    linuxRemoveAlarm (some []) none "Wake" "7:30" "" =
      (some [], false, "Alarm 'Wake' at 7:30 not found in crontab.") :=
  ⟨(c6_error_handling_thm demoEnv t730 "Wake" "bad" "" "e" [] true [jWake]
      none 0 0 []).2.2.2.1 (by decide),
   (c6_error_handling_thm demoEnv t730 "Wake" "7:30" "" "disk full" [] true
      [jWake] none 7 30 []).2.2.2.2.1 (by decide) (by decide),
   (c6_error_handling_thm demoEnv t730 "Wake" "7:30" "" "e" [] true []
      none 7 30 []).2.2.2.2.2.1 (by decide) (by decide)⟩

/-! ### C7 -/

set_option maxRecDepth 400000 in
/-- C7: starting from any crontab with no application-owned records,
`add_alarm(07:30, "Wake", days=[], one_time=True)` followed by
`list_alarms()` yields exactly the one entry
`{time: "7:30", sequence: "Wake", days: ["Once"]}` (reported enabled). -/
theorem c7_round_trip_thm (store : List CronJob)
    (hforeign : ∀ j ∈ store, isOwnedJob j = false) :
    linuxListAlarms
        (linuxAddAlarm (some store) none demoEnv t730 "Wake" [] true).1 =
      [{ time := "7:30", sequence := "Wake", days := ["Once"], enabled := true }] := by
  have hadd : (linuxAddAlarm (some store) none demoEnv t730 "Wake" [] true).1 =
      some (store ++ [linuxNewJob demoEnv t730 "Wake" [] true]) := rfl
  rw [hadd]
  simp only [linuxListAlarms, List.filterMap_append,
    filterMap_guard_nil _ _ store hforeign, List.nil_append]
  decide

set_option maxRecDepth 400000 in
/-- Witness for C7 starting from a crontab holding one foreign record. -/
theorem c7_witness :
    linuxListAlarms
        (linuxAddAlarm (some [foreignJob]) none demoEnv t730 "Wake" [] true).1 =
      [{ time := "7:30", sequence := "Wake", days := ["Once"], enabled := true }] :=
  c7_round_trip_thm [foreignJob] (by decide)

/-! ### C8 -/

set_option maxRecDepth 400000 in
/-- C8, counterexample: on the Launchd adapter a recurring alarm created
with all seven weekdays is listed with the explicit seven-weekday list, not
`["Daily"]` (the plist stores `PCVA_DAYS = "MON,...,SUN"`, and the listing
maps only the literal `"daily"` to `["Daily"]`). -/
theorem c8_counterexample :
    (macListAlarms
        (macAddAlarm [] macDemoEnv t2200 "Bedtime" allSeven false true).1).map
        (fun a => a.days) = [allSeven] ∧
    allSeven ≠ ["Daily"] := by
  refine ⟨by decide, by decide⟩

set_option maxRecDepth 400000 in
/-- C8, amended: on the Cron adapter a recurring alarm with `days=[]` or
with all seven weekdays both round-trip to `["Daily"]`; on the Launchd
adapter `days=[]` round-trips to `["Daily"]` but all seven weekdays
round-trip to the explicit seven-weekday list (the trigger itself is still
daily). -/
theorem c8_amended_thm :
    linuxListAlarms
        (linuxAddAlarm (some []) none demoEnv t2200 "Bedtime" [] false).1 =
      [{ time := "22:00", sequence := "Bedtime", days := ["Daily"], enabled := true }] ∧
    linuxListAlarms
        (linuxAddAlarm (some []) none demoEnv t2200 "Bedtime" allSeven false).1 =
      [{ time := "22:00", sequence := "Bedtime", days := ["Daily"], enabled := true }] ∧
    (macListAlarms
        (macAddAlarm [] macDemoEnv t2200 "Bedtime" [] false true).1).map
        (fun a => a.days) = [["Daily"]] ∧
    (macListAlarms
        (macAddAlarm [] macDemoEnv t2200 "Bedtime" allSeven false true).1).map
        (fun a => a.days) = [allSeven] := by
  refine ⟨by decide, by decide, by decide, by decide⟩

/-! ### C9 -/

/-- C9: on the Cron and Launchd adapters, one `remove_alarm` call removes
exactly the first matching owned record in scan order (and nothing else),
returns `(False, message)` naming the sequence and the time when no owned
record matches, and — when exactly one record matches — a second identical
call after the successful removal returns that failure. -/
theorem c9_remove_thm (store : List CronJob) (plists : List MacPlist)
    (name ts ds : String) (h m : Nat) (hts : parseTimeStr ts = some (h, m)) :
    ((∀ j ∈ store, linuxRemoveMatches name h m ds j = false) →
      linuxRemoveAlarm (some store) none name ts ds =
        (some store, false,
          "Alarm '" ++ name ++ "' at " ++ ts ++ " not found in crontab.")) ∧
    (∀ pre j post, store = pre ++ j :: post →
      linuxRemoveMatches name h m ds j = true →
      (∀ k ∈ pre, linuxRemoveMatches name h m ds k = false) →
      linuxRemoveAlarm (some store) none name ts ds =
        (some (pre ++ post), true, "Removed alarm: " ++ name)) ∧
    (store.countP (linuxRemoveMatches name h m ds) = 1 →
      ∃ s', linuxRemoveAlarm (some store) none name ts ds =
        (some s', true, "Removed alarm: " ++ name) ∧
        linuxRemoveAlarm (some s') none name ts ds =
          (some s', false,
            "Alarm '" ++ name ++ "' at " ++ ts ++ " not found in crontab.")) ∧
    ((∀ p ∈ plists, macRemoveMatches name h m ds p = false) →
      macRemoveAlarm plists name ts ds =
        (plists, false, "Alarm '" ++ name ++ "' at " ++ ts ++ " not found.")) ∧
    (∀ pre p post, plists = pre ++ p :: post →
      macRemoveMatches name h m ds p = true →
      (∀ q ∈ pre, macRemoveMatches name h m ds q = false) →
      macRemoveAlarm plists name ts ds =
        (pre ++ post, true, "Removed alarm: " ++ name)) ∧
    (plists.countP (macRemoveMatches name h m ds) = 1 →
      ∃ ps', macRemoveAlarm plists name ts ds =
        (ps', true, "Removed alarm: " ++ name) ∧
        macRemoveAlarm ps' name ts ds =
          (ps', false, "Alarm '" ++ name ++ "' at " ++ ts ++ " not found.")) := by
  refine ⟨?_, ?_, ?_, ?_, ?_, ?_⟩
  · intro h1
    have h2 : removeFirst (linuxRemoveMatches name h m ds) store = none :=
      (removeFirst_eq_none_iff _ _).mpr h1
    simp [linuxRemoveAlarm, hts, h2]
  · intro pre j post hdec hj hpre
    have h2 := removeFirst_append_first (linuxRemoveMatches name h m ds)
      pre post j hpre hj
    rw [hdec]
    simp [linuxRemoveAlarm, hts, h2]
  · intro h1
    cases hr : removeFirst (linuxRemoveMatches name h m ds) store with
    | none =>
      rw [removeFirst_eq_none_iff] at hr
      have : store.countP (linuxRemoveMatches name h m ds) = 0 := by
        rw [List.countP_eq_zero]
        intro a ha
        simp [hr a ha]
      omega
    | some s' =>
      refine ⟨s', ?_, ?_⟩
      · simp [linuxRemoveAlarm, hts, hr]
      · have hc := removeFirst_countP _ _ _ hr
        have hz : s'.countP (linuxRemoveMatches name h m ds) = 0 := by omega
        have h2 : removeFirst (linuxRemoveMatches name h m ds) s' = none := by
          rw [removeFirst_eq_none_iff]
          intro x hx
          rw [List.countP_eq_zero] at hz
          simpa using hz x hx
        simp [linuxRemoveAlarm, hts, h2]
  · intro h1
    have h2 : removeFirst (macRemoveMatches name h m ds) plists = none :=
      (removeFirst_eq_none_iff _ _).mpr h1
    simp [macRemoveAlarm, hts, h2]
  · intro pre p post hdec hp hpre
    have h2 := removeFirst_append_first (macRemoveMatches name h m ds)
      pre post p hpre hp
    rw [hdec]
    simp [macRemoveAlarm, hts, h2]
  · intro h1
    cases hr : removeFirst (macRemoveMatches name h m ds) plists with
    | none =>
      rw [removeFirst_eq_none_iff] at hr
      have : plists.countP (macRemoveMatches name h m ds) = 0 := by
        rw [List.countP_eq_zero]
        intro a ha
        simp [hr a ha]
      omega
    | some ps' =>
      refine ⟨ps', ?_, ?_⟩
      · simp [macRemoveAlarm, hts, hr]
      · have hc := removeFirst_countP _ _ _ hr
        have hz : ps'.countP (macRemoveMatches name h m ds) = 0 := by omega
        have h2 : removeFirst (macRemoveMatches name h m ds) ps' = none := by
          rw [removeFirst_eq_none_iff]
          intro x hx
          rw [List.countP_eq_zero] at hz
          simpa using hz x hx
        simp [macRemoveAlarm, hts, h2]

set_option maxRecDepth 400000 in
/-- Witness for C9 at one-record stores on both adapters: the single match
is removed and the identical second call fails with "not found". -/
theorem c9_witness :
    (∃ s', linuxRemoveAlarm (some [jWake]) none "Wake" "7:30" "" =
      (some s', true, "Removed alarm: " ++ "Wake") ∧
      linuxRemoveAlarm (some s') none "Wake" "7:30" "" =
        (some s', false,
          "Alarm '" ++ "Wake" ++ "' at " ++ "7:30" ++ " not found in crontab.")) ∧
    (∃ ps', macRemoveAlarm [macNewPlist macDemoEnv t730 "Wake" [] true true]
        "Wake" "7:30" "" = (ps', true, "Removed alarm: " ++ "Wake") ∧
      macRemoveAlarm ps' "Wake" "7:30" "" =
        (ps', false, "Alarm '" ++ "Wake" ++ "' at " ++ "7:30" ++ " not found.")) :=
  ⟨(c9_remove_thm [jWake] [] "Wake" "7:30" "" 7 30 (by decide)).2.2.1
      (by decide),
   (c9_remove_thm [] [macNewPlist macDemoEnv t730 "Wake" [] true true]
      "Wake" "7:30" "" 7 30 (by decide)).2.2.2.2.2 (by decide)⟩

/-! ### C10 -/

/-- C10: the Cron adapter's `remove_alarm` matches the sequence name by
substring containment in the whole crontab command line — an owned job at
the requested hour/minute whose command merely contains the requested name
(while its actual `--execute-sequence` argument differs) is matched and
deleted when it comes first in scan order. -/
theorem c10_substring_match_thm (j other : CronJob) (name ts : String)
    (h m : Nat) (hts : parseTimeStr ts = some (h, m))
    (hown : isOwnedJob j = true) (hh : j.hour = h) (hm : j.minute = m)
    (hsub : strHasSub j.command name = true)
    (_hdiff : strHasSub j.command
      ("--execute-sequence " ++ quoteArg name) = false) :
    linuxRemoveAlarm (some [j, other]) none name ts "" =
      (some [other], true, "Removed alarm: " ++ name) := by
  have hmatch : linuxRemoveMatches name h m "" j = true := by
    simp [linuxRemoveMatches, hown, hh, hm, hsub]
  have h2 : removeFirst (linuxRemoveMatches name h m "") [j, other] =
      some [other] := by
    simp [removeFirst, hmatch]
  simp [linuxRemoveAlarm, hts, h2]

set_option maxRecDepth 400000 in
/-- Witness for C10: two owned one-time jobs at 7:30, for sequences
`Wakeup` (first) and `Wake` (second); `remove_alarm("Wake", "7:30")`
deletes the `Wakeup` job although its `--execute-sequence` argument is not
`"Wake"`. -/
theorem c10_witness :
    strHasSub jWakeup.command ("--execute-sequence " ++ quoteArg "Wake") = false ∧
    linuxRemoveAlarm (some [jWakeup, jWake]) none "Wake" "7:30" "" =
      (some [jWake], true, "Removed alarm: " ++ "Wake") :=
  ⟨by decide,
   c10_substring_match_thm jWakeup jWake "Wake" "7:30" 7 30 (by decide)
     (by decide) (by decide) (by decide) (by decide) (by decide)⟩
